import Mathlib

/-!
Verification of the `FlagHandler` class (flag conflict registry) of
`typhonjs-node-bundle/plugin-flaghandler`.

The registry is a small in-memory database mapping command names to
per-plugin flag contributions.  The three public methods `addFlags`,
`getFlags` and `verifyFlags` are embedded below as explicit state
transformers over the database value; JavaScript dynamic values appearing
in method arguments are embedded as the inductive `JVal`, with callback
function values represented as references (`JVal.fnRef`) resolved through
an explicit environment, mirroring how a JS engine stores function objects
on the heap.

JavaScript objects used as dictionaries are embedded as association lists
`List (String × α)` in insertion order, matching `Object.keys` enumeration
order for string keys; property assignment (`setKey`) replaces the value of
an existing key in place and appends a new key at the end, matching JS
property-set semantics.
-/

namespace FlagHandler

/-- One flag specification: the `char` field is the optional shorthand
alias (present exactly when the source object carries a string `char`
property); `data` stands for the remaining Oclif metadata, which the
registry never inspects. -/
structure FlagSpecT where
  char : Option String
  data : Nat
deriving DecidableEq

/-- A JavaScript dynamic value, restricted to the shapes the FlagHandler
methods inspect.  `fnRef` is a function object identified by a heap id,
to be applied through an explicit environment. -/
inductive JVal where
  | str (s : String)
  | num (n : Int)
  | obj (m : List (String × FlagSpecT))
  | fnRef (id : Nat)
  | nul
  | undef
deriving DecidableEq

/-- The JS `typeof` operator on embedded values.  Note `typeof null`
evaluates to the string `"object"` in JavaScript. -/
def typeofJV : JVal → String
  | .str _ => "string"
  | .num _ => "number"
  | .obj _ => "object"
  | .fnRef _ => "function"
  | .nul => "object"
  | .undef => "undefined"

/-- A flags dictionary: flag name to flag spec, in insertion order. -/
abbrev FlagMap := List (String × FlagSpecT)

/-- One stored contribution: the flags object and the optional verify
callback (a function reference, or `none` when the caller passed
`null`/`undefined`). -/
structure Contribution where
  flags : FlagMap
  verify : Option Nat
deriving DecidableEq

/-- Second level of the database: plugin name to contribution. -/
abbrev CommandRegistry := List (String × Contribution)

/-- The whole `_database`: command name to command registry. -/
abbrev Database := List (String × CommandRegistry)

/-- Property lookup on a JS dictionary object: the value at the first
(and, for a real JS object, only) occurrence of the key. -/
def alookup {α : Type} : List (String × α) → String → Option α
  | [], _ => none
  | kv :: rest, q => if kv.1 = q then some kv.2 else alookup rest q

/-- JS property assignment `o[k] = v` on a dictionary object: an existing
key keeps its position and gets the new value; a new key is appended. -/
def setKey {α : Type} (m : List (String × α)) (k : String) (v : α) :
    List (String × α) :=
  if m.any (fun kv => kv.1 = k) then
    m.map (fun kv => if kv.1 = k then (k, v) else kv)
  else
    m ++ [(k, v)]

/-- `Object.assign(target, source)` contents: each own property of
`source`, in key order, is assigned onto `target`. -/
def objAssign (target source : FlagMap) : FlagMap :=
  source.foldl (fun t kv => setKey t kv.1 kv.2) target

/-- The key list of a dictionary object (`Object.keys`). -/
def keysOf {α : Type} (m : List (String × α)) : List String :=
  m.map Prod.fst

/-- One conflict record, carrying exactly the data interpolated into the
corresponding conflict message line built by `_checkFlagConflict`:
`flagName f np op c` is the line Flag f from np already defined by op
plugin for c command; `aliasChar ch f np ok op c` is the line
Alias ch of flag f from np already defined by ok flag in op for c
command. -/
inductive Conflict where
  | flagName (flag newPlugin ownerPlugin command : String)
  | aliasChar (ch flag newPlugin ownerFlag ownerPlugin command : String)
deriving DecidableEq

/-- Errors thrown by the FlagHandler methods.  Each constructor stands for
one `throw new Error(...)` site (or, for `nullFlagsTypeError`, the
TypeError a JS engine raises at `Object.keys(null)`, reachable because
`typeof null` is `"object"` and so `null` flags pass the shape check). -/
inductive Err where
  | commandNotString
  | pluginNotString
  | flagsNotObject
  | verifyNotFunction
  | nullFlagsTypeError
  | duplicatePlugin (plugin : String)
  | conflicts (cs : List Conflict)
  | getCommandNotString
  | verifyCommandNotString
  | verifyFlagsNotObject
  | verifyThrow (msg : String)
deriving DecidableEq

/-- The inner loop of `_checkFlagConflict` for one new flag with alias
`ch` against one existing plugin flags object: one alias conflict record
per stored flag whose `char` equals `ch`, in key order. -/
def aliasConflicts (commandName newPluginName newFlag ch pluginName : String)
    (pluginFlags : FlagMap) : List Conflict :=
  pluginFlags.filterMap (fun kv =>
    match kv.2.char with
    | some c2 =>
        if c2 = ch then
          some (Conflict.aliasChar ch newFlag newPluginName kv.1 pluginName commandName)
        else none
    | none => none)

/-- Conflict records one new flag generates against one existing plugin:
a flag-name record when the name is already a key of the stored flags,
followed by the alias records when the new flag carries an alias. -/
def conflictsWithPlugin (commandName newPluginName newFlag : String)
    (newFlagChar : Option String) (pluginName : String)
    (pluginFlags : FlagMap) : List Conflict :=
  (if (alookup pluginFlags newFlag).isSome then
      [Conflict.flagName newFlag newPluginName pluginName commandName]
    else []) ++
  (match newFlagChar with
    | some ch => aliasConflicts commandName newPluginName newFlag ch pluginName pluginFlags
    | none => [])

/-- Conflict records one new flag generates against every plugin already
registered for the command, in plugin order. -/
def conflictsForFlag (commandName newPluginName newFlag : String)
    (newFlagChar : Option String) (plugins : CommandRegistry) : List Conflict :=
  plugins.flatMap (fun pc =>
    conflictsWithPlugin commandName newPluginName newFlag newFlagChar pc.1 pc.2.flags)

/-- All conflict records accumulated by the two nested loops of
`_checkFlagConflict`: outer loop over the new flags in key order, inner
loops over the existing plugins.  This is the structured content of the
`flagConflictMsg` string the source accumulates before throwing once. -/
def conflictList (commandName newPluginName : String) (newFlags : FlagMap)
    (plugins : CommandRegistry) : List Conflict :=
  newFlags.flatMap (fun kv =>
    conflictsForFlag commandName newPluginName kv.1 kv.2.char plugins)

/-- `FlagHandler._checkFlagConflict`.  Reads the command registry (or an
empty one), throws `duplicatePlugin` when the plugin name is already a
key, then accumulates every name and alias conflict of the new flags
against the already registered plugins and throws them as one aggregate
error when any exist.  The `Object.keys(newPluginFlags)` call raises a
TypeError when the flags value is `null` (the only non-object value whose
`typeof` is `"object"`). -/
def checkFlagConflict (commandName newPluginName : String)
    (newPluginFlagsV : JVal) (db : Database) : Except Err Unit :=
  if ((alookup db commandName).getD []).any (fun pc => pc.1 = newPluginName) then
    Except.error (Err.duplicatePlugin newPluginName)
  else
    match newPluginFlagsV with
    | JVal.obj newPluginFlags =>
        if conflictList commandName newPluginName newPluginFlags
            ((alookup db commandName).getD []) = [] then
          Except.ok ()
        else
          Except.error (Err.conflicts (conflictList commandName newPluginName
            newPluginFlags ((alookup db commandName).getD [])))
    | _ => Except.error Err.nullFlagsTypeError

/-- The arguments of `addFlags` (`newEntry`), with each property a raw JS
value; an absent property is `undef`. -/
structure NewEntry where
  command : JVal
  plugin : JVal
  flags : JVal
  verify : JVal
deriving DecidableEq

/-- `FlagHandler.addFlags` as a state transformer on the database: the
result of the call (`ok` or the thrown error) together with the database
after the call.  Validation order follows the source: `command` string,
`plugin` string, `flags` of object type, `verify` absent or a function;
then `_checkFlagConflict`; only after all checks pass is the contribution
stored, via `Object.assign(newFlags, \x7b\x7d)` — whose target, and hence
return value, is the callers `newFlags` object itself. -/
def addFlags (e : NewEntry) (db : Database) : Except Err Unit × Database :=
  match e.command with
  | JVal.str commandName =>
    match e.plugin with
    | JVal.str pluginName =>
      if typeofJV e.flags ≠ "object" then (Except.error Err.flagsNotObject, db)
      else if e.verify ≠ JVal.nul ∧ e.verify ≠ JVal.undef ∧ typeofJV e.verify ≠ "function" then
        (Except.error Err.verifyNotFunction, db)
      else
        match checkFlagConflict commandName pluginName e.flags db with
        | Except.error er => (Except.error er, db)
        | Except.ok _ =>
          match e.flags with
          | JVal.obj newFlags =>
            (Except.ok (), setKey db commandName
              (setKey ((alookup db commandName).getD []) pluginName
                { flags := objAssign newFlags [],
                  verify := match e.verify with
                            | JVal.fnRef i => some i
                            | _ => none }))
          | _ => (Except.error Err.nullFlagsTypeError, db)
    | _ => (Except.error Err.pluginNotString, db)
  | _ => (Except.error Err.commandNotString, db)

/-- The argument of `getFlags` (`query`). -/
structure GetQuery where
  command : JVal
deriving DecidableEq

/-- `FlagHandler.getFlags` as a state transformer: checks the command name
is a string, then merges the flags of every plugin registered for the
command, in plugin order, into a fresh object.  The method contains no
write to `_database`, so the state component is returned unchanged. -/
def getFlags (q : GetQuery) (db : Database) : Except Err FlagMap × Database :=
  match q.command with
  | JVal.str commandName =>
    let plugins := (alookup db commandName).getD []
    let allFlags := plugins.foldl (fun acc pc => objAssign acc pc.2.flags) []
    (Except.ok allFlags, db)
  | _ => (Except.error Err.getCommandNotString, db)

/-- The arguments of `verifyFlags` (`query`). -/
structure VerifyQuery where
  command : JVal
  flags : JVal
deriving DecidableEq

/-- The callback environment: resolves a function reference id to the
behaviour of the callback on the passed flags value — `none` for a normal
return, `some msg` for a thrown error. -/
abbrev FEnv := Nat → JVal → Option String

/-- The verification loop of `verifyFlags` over the command registry, in
plugin order: a stored callback is invoked on the flags value; a throw
propagates at once, skipping the remaining plugins.  The second component
records, in order, the plugin names whose callback was invoked. -/
def runVerify (fenv : FEnv) (fv : JVal) :
    CommandRegistry → Except Err Unit × List String
  | [] => (Except.ok (), [])
  | pc :: rest =>
    match pc.2.verify with
    | none => runVerify fenv fv rest
    | some i =>
      match fenv i fv with
      | none =>
        let r := runVerify fenv fv rest
        (r.1, pc.1 :: r.2)
      | some msg => (Except.error (Err.verifyThrow msg), [pc.1])

/-- `FlagHandler.verifyFlags` as a state transformer: checks the command
name is a string and the flags value of object type, then runs the
verification loop.  The method contains no write to `_database`, so the
state component is returned unchanged. -/
def verifyFlags (fenv : FEnv) (q : VerifyQuery) (db : Database) :
    (Except Err Unit × List String) × Database :=
  match q.command with
  | JVal.str commandName =>
    if typeofJV q.flags ≠ "object" then
      ((Except.error Err.verifyFlagsNotObject, []), db)
    else
      let plugins := (alookup db commandName).getD []
      (runVerify fenv q.flags plugins, db)
  | _ => ((Except.error Err.verifyCommandNotString, []), db)

/-- A JS object reference: a heap identity together with the current
contents.  Used to express aliasing facts about line 83 of the source. -/
structure ObjRef where
  id : Nat
  val : FlagMap
deriving DecidableEq

/-- `Object.assign(target, source)` at the reference level: the own
properties of `source` are copied onto `target`, and the RETURN VALUE is
the target reference itself, not a fresh object. -/
def jsObjectAssign (target : ObjRef) (source : FlagMap) : ObjRef :=
  ⟨target.id, objAssign target.val source⟩

/-- The object stored in the contribution by `addFlags` line 83:
`Object.assign(newFlags, \x7b\x7d)`, i.e. the callers `newFlags` object as
the TARGET with an empty source. -/
def storedFlagsObj (newFlags : ObjRef) : ObjRef :=
  jsObjectAssign newFlags []

/-- Reading an object through a reference out of a heap keyed by object
id: the view the registry has of a stored object after arbitrary later
heap mutations. -/
def readRef (heap : Nat → FlagMap) (r : ObjRef) : FlagMap :=
  heap r.id

/-- The plugin names with a stored verify callback, in registration
order. -/
def withCb (l : CommandRegistry) : List String :=
  l.filterMap (fun pc => pc.2.verify.map (fun _ => pc.1))

/- Basic lemmas about the dictionary operations. -/

theorem alookup_nil {α : Type} (q : String) : alookup ([] : List (String × α)) q = none := rfl

theorem alookup_cons {α : Type} (kv : String × α) (m : List (String × α)) (q : String) :
    alookup (kv :: m) q = if kv.1 = q then some kv.2 else alookup m q := rfl

theorem alookup_none_of_any_eq_false {α : Type} {m : List (String × α)} {k : String}
    (h : m.any (fun kv => kv.1 = k) = false) : alookup m k = none := by
  induction m with
  | nil => rfl
  | cons kv rest ih =>
    simp only [List.any_cons, Bool.or_eq_false_iff, decide_eq_false_iff_not] at h
    simp [alookup_cons, h.1, ih h.2]

theorem alookup_append_of_some {α : Type} {m1 : List (String × α)} {q : String} {v : α}
    (m2 : List (String × α)) (h : alookup m1 q = some v) :
    alookup (m1 ++ m2) q = some v := by
  induction m1 with
  | nil => simp [alookup_nil] at h
  | cons kv rest ih =>
    rw [alookup_cons] at h
    by_cases hk : kv.1 = q
    · simp_all [alookup_cons]
    · simp only [List.cons_append, alookup_cons, if_neg hk] at *
      exact ih h

theorem alookup_append_of_none {α : Type} {m1 : List (String × α)} {q : String}
    (m2 : List (String × α)) (h : alookup m1 q = none) :
    alookup (m1 ++ m2) q = alookup m2 q := by
  induction m1 with
  | nil => rfl
  | cons kv rest ih =>
    rw [alookup_cons] at h
    by_cases hk : kv.1 = q
    · simp [hk] at h
    · simp only [List.cons_append, alookup_cons, if_neg hk] at *
      exact ih h

theorem alookup_map_set_self {α : Type} {m : List (String × α)} {k : String} (v : α)
    (h : m.any (fun kv => kv.1 = k) = true) :
    alookup (m.map (fun kv => if kv.1 = k then (k, v) else kv)) k = some v := by
  induction m with
  | nil => simp at h
  | cons kv rest ih =>
    by_cases hk : kv.1 = k
    · simp [alookup_cons, hk]
    · simp only [List.any_cons, Bool.or_eq_true, decide_eq_true_eq] at h
      rcases h with h | h

      · exact absurd h hk
      · simp only [List.map_cons, alookup_cons, if_neg hk]
        exact ih h

theorem alookup_map_set_ne {α : Type} {m : List (String × α)} {k q : String} (v : α)
    (h : q ≠ k) :
    alookup (m.map (fun kv => if kv.1 = k then (k, v) else kv)) q = alookup m q := by
  induction m with
  | nil => rfl
  | cons kv rest ih =>
    by_cases hk : kv.1 = k
    · have hkq : ¬ (k = q) := fun hh => h hh.symm
      have hkvq : ¬ (kv.1 = q) := by rw [hk]; exact hkq
      simp [alookup_cons, hk, hkq, hkvq, ih]
    · simp only [List.map_cons, if_neg hk, alookup_cons, ih]

theorem alookup_setKey_self {α : Type} (m : List (String × α)) (k : String) (v : α) :
    alookup (setKey m k v) k = some v := by
  unfold setKey
  by_cases h : m.any (fun kv => kv.1 = k) = true
  · rw [if_pos h]
    exact alookup_map_set_self v h
  · rw [if_neg h]
    have hn : alookup m k = none :=
      alookup_none_of_any_eq_false (Bool.eq_false_iff.2 h)
    rw [alookup_append_of_none _ hn]
    simp [alookup_cons]

theorem alookup_setKey_ne {α : Type} (m : List (String × α)) {k q : String} (v : α)
    (h : q ≠ k) : alookup (setKey m k v) q = alookup m q := by
  unfold setKey
  by_cases hany : m.any (fun kv => kv.1 = k) = true
  · rw [if_pos hany]
    exact alookup_map_set_ne v h
  · rw [if_neg hany]
    cases hm : alookup m q with
    | some v2 => exact alookup_append_of_some _ hm
    | none =>
      rw [alookup_append_of_none _ hm]
      have hkq : ¬ (k = q) := fun hh => h hh.symm
      simp [alookup_cons, alookup_nil, hkq, hm]

theorem isSome_alookup_setKey {α : Type} (m : List (String × α)) (k q : String) (v : α) :
    (alookup (setKey m k v) q).isSome = true ↔ q = k ∨ (alookup m q).isSome = true := by
  by_cases h : q = k
  · subst h
    simp [alookup_setKey_self]
  · rw [alookup_setKey_ne m v h]
    simp [h]

theorem mem_keysOf_iff_isSome {α : Type} {m : List (String × α)} {q : String} :
    q ∈ keysOf m ↔ (alookup m q).isSome = true := by
  induction m with
  | nil => simp [keysOf, alookup_nil]
  | cons kv rest ih =>
    by_cases h : kv.1 = q
    · simp [keysOf, alookup_cons, h]
    · have hq : ¬ (q = kv.1) := fun hh => h hh.symm
      simp [keysOf, alookup_cons, h, hq] at *
      exact ih

theorem objAssign_nil (t : FlagMap) : objAssign t [] = t := rfl

theorem objAssign_cons (t : FlagMap) (kv : String × FlagSpecT) (s : FlagMap) :
    objAssign t (kv :: s) = objAssign (setKey t kv.1 kv.2) s := rfl

theorem isSome_alookup_objAssign (s : FlagMap) : ∀ (t : FlagMap) (q : String),
    (alookup (objAssign t s) q).isSome = true ↔
      (alookup t q).isSome = true ∨ (alookup s q).isSome = true := by
  induction s with
  | nil =>
    intro t q
    simp [objAssign_nil, alookup_nil]
  | cons kv s ih =>
    intro t q
    rw [objAssign_cons, ih, isSome_alookup_setKey, alookup_cons]
    by_cases h : kv.1 = q
    · simp [h]
    · have hq : ¬ (q = kv.1) := fun hh => h hh.symm
      simp [h, hq]

theorem isSome_alookup_mergeFold (l : CommandRegistry) : ∀ (init : FlagMap) (q : String),
    (alookup (l.foldl (fun acc pc => objAssign acc pc.2.flags) init) q).isSome = true ↔
      (alookup init q).isSome = true ∨
        ∃ pc ∈ l, (alookup pc.2.flags q).isSome = true := by
  induction l with
  | nil =>
    intro init q
    simp
  | cons pc l ih =>
    intro init q
    rw [List.foldl_cons, ih, isSome_alookup_objAssign]
    simp only [List.mem_cons]
    constructor
    · rintro (⟨h | h⟩ | ⟨pc2, hm, h⟩)
      · exact Or.inl h
      · exact Or.inr ⟨pc, Or.inl rfl, h⟩
      · exact Or.inr ⟨pc2, Or.inr hm, h⟩
    · rintro (h | ⟨pc2, (rfl | hm), h⟩)
      · exact Or.inl (Or.inl h)
      · exact Or.inl (Or.inr h)
      · exact Or.inr ⟨pc2, hm, h⟩

/- Completeness of the accumulated conflict list: every name collision and
every alias collision of the new flags against the already registered
plugins produces its record. -/

theorem flagName_mem_conflictList {cmd plg : String} {fl : FlagMap}
    {plugins : CommandRegistry} {n : String} {spec : FlagSpecT} {p : String}
    {c : Contribution} (hn : (n, spec) ∈ fl) (hp : (p, c) ∈ plugins)
    (hf : (alookup c.flags n).isSome = true) :
    Conflict.flagName n plg p cmd ∈ conflictList cmd plg fl plugins := by
  unfold conflictList
  rw [List.mem_flatMap]
  refine ⟨(n, spec), hn, ?_⟩
  unfold conflictsForFlag
  rw [List.mem_flatMap]
  refine ⟨(p, c), hp, ?_⟩
  unfold conflictsWithPlugin
  rw [List.mem_append]
  left
  simp [hf]

theorem aliasChar_mem_conflictList {cmd plg : String} {fl : FlagMap}
    {plugins : CommandRegistry} {n : String} {spec : FlagSpecT} {ch : String}
    {p : String} {c : Contribution} {k : String} {s2 : FlagSpecT}
    (hn : (n, spec) ∈ fl) (hch : spec.char = some ch) (hp : (p, c) ∈ plugins)
    (hk : (k, s2) ∈ c.flags) (hc2 : s2.char = some ch) :
    Conflict.aliasChar ch n plg k p cmd ∈ conflictList cmd plg fl plugins := by
  unfold conflictList
  rw [List.mem_flatMap]
  refine ⟨(n, spec), hn, ?_⟩
  unfold conflictsForFlag
  rw [List.mem_flatMap]
  refine ⟨(p, c), hp, ?_⟩
  unfold conflictsWithPlugin
  rw [List.mem_append]
  right
  rw [hch]
  unfold aliasConflicts
  rw [List.mem_filterMap]
  refine ⟨(k, s2), hk, ?_⟩
  simp [hc2]

/- Characterization of the verification loop. -/

theorem runVerify_ok {fenv : FEnv} {fv : JVal} {l : CommandRegistry}
    (h : ∀ pc ∈ l, ∀ i, pc.2.verify = some i → fenv i fv = none) :
    runVerify fenv fv l = (Except.ok (), withCb l) := by
  induction l with
  | nil => rfl
  | cons pc rest ih =>
    have hrest : ∀ pc2 ∈ rest, ∀ i, pc2.2.verify = some i → fenv i fv = none :=
      fun pc2 hm i hi => h pc2 (List.mem_cons_of_mem pc hm) i hi
    cases hv : pc.2.verify with
    | none => simp [runVerify, hv, withCb, ih hrest, List.filterMap_cons]
    | some i =>
      have := h pc (List.mem_cons_self pc rest) i hv
      simp [runVerify, hv, this, ih hrest, withCb, List.filterMap_cons]

theorem runVerify_fail {fenv : FEnv} {fv : JVal} {pc : String × Contribution}
    {i : Nat} {msg : String} (l2 : CommandRegistry) (l1 : CommandRegistry)
    (h1 : ∀ pc2 ∈ l1, ∀ i2, pc2.2.verify = some i2 → fenv i2 fv = none)
    (hi : pc.2.verify = some i) (hm : fenv i fv = some msg) :
    runVerify fenv fv (l1 ++ pc :: l2) =
      (Except.error (Err.verifyThrow msg), withCb l1 ++ [pc.1]) := by
  induction l1 with
  | nil => simp [runVerify, hi, hm, withCb]
  | cons pc2 rest ih =>
    have hrest : ∀ pc3 ∈ rest, ∀ i2, pc3.2.verify = some i2 → fenv i2 fv = none :=
      fun pc3 hm2 i2 hi2 => h1 pc3 (List.mem_cons_of_mem pc2 hm2) i2 hi2
    cases hv : pc2.2.verify with
    | none => simp [runVerify, hv, withCb, List.filterMap_cons, ih hrest]
    | some i2 =>
      have hok := h1 pc2 (List.mem_cons_self pc2 rest) i2 hv
      simp [runVerify, hv, hok, withCb, List.filterMap_cons, ih hrest]

/- Shape helpers for addFlags: a call either leaves the database untouched
or succeeds, and a successful call has exactly the update shape of the
store step. -/

theorem addFlags_shape (e : NewEntry) (db : Database) :
    (addFlags e db).2 = db ∨ (addFlags e db).1 = Except.ok () := by
  unfold addFlags
  repeat' split
  all_goals simp

theorem addFlags_success_shape {e : NewEntry} {db d2 : Database}
    (hok : addFlags e db = (Except.ok (), d2)) :
    ∃ cmd plg fl,
      e.command = JVal.str cmd ∧ e.plugin = JVal.str plg ∧ e.flags = JVal.obj fl ∧
      d2 = setKey db cmd (setKey ((alookup db cmd).getD []) plg
        { flags := objAssign fl [],
          verify := match e.verify with
                    | JVal.fnRef i => some i
                    | _ => none }) := by
  unfold addFlags at hok
  split at hok
  · next cmd hc =>
    split at hok
    · next plg hp =>
      split at hok
      · simp at hok
      · split at hok
        · simp at hok
        · split at hok
          · simp at hok
          · split at hok
            · next fl hf =>
              refine ⟨cmd, plg, fl, hc, hp, hf, ?_⟩
              simp only [Prod.mk.injEq, true_and] at hok
              exact hok.symm
            · simp at hok
    · simp at hok
  · simp at hok

/-- C2: for every registry state and every addFlags call that fails with
any error (invalid argument, duplicate plugin, flag-name conflict or alias
conflict), the database after the failed call is exactly the database
before it: no partial insertion occurs. -/
theorem addFlags_failed_call_leaves_database_unchanged
    (e : NewEntry) (db : Database) (msg : Err)
    (h : (addFlags e db).1 = Except.error msg) : (addFlags e db).2 = db := by
  rcases addFlags_shape e db with h2 | h2
  · exact h2
  · rw [h] at h2
    exact Except.noConfusion h2

/-- Witness for C2 at a concrete failing call: a duplicate-plugin
rejection leaves the one-command database as it was. -/
theorem addFlags_failed_call_leaves_database_unchanged_witness :
    (addFlags ⟨JVal.str "run", JVal.str "A", JVal.obj [("x", ⟨none, 1⟩)], JVal.undef⟩
      [("run", [("A", ⟨[("cwd", ⟨none, 0⟩)], none⟩)])]).2 =
      [("run", [("A", ⟨[("cwd", ⟨none, 0⟩)], none⟩)])] :=
  addFlags_failed_call_leaves_database_unchanged _ _ (Err.duplicatePlugin "A") rfl

/-- C4: when a plugin name already has a contribution under a command, a
second addFlags call for the same command and plugin pair fails with the
duplicate-plugin error, whatever flags value (of object type) and verify
value it carries — in particular the error is the distinct duplicate-plugin
one even when the flags would also collide, because this check runs before
the flag-name and alias conflict checks. -/
theorem addFlags_duplicate_plugin_always_rejected_first
    (db : Database) (cmd plg : String) (flagsV vfv : JVal)
    (hf : typeofJV flagsV = "object")
    (hv : vfv = JVal.nul ∨ vfv = JVal.undef ∨ ∃ i, vfv = JVal.fnRef i)
    (hdup : ((alookup db cmd).getD []).any (fun pc => pc.1 = plg) = true) :
    addFlags ⟨JVal.str cmd, JVal.str plg, flagsV, vfv⟩ db =
      (Except.error (Err.duplicatePlugin plg), db) := by
  rcases hv with rfl | rfl | ⟨i, rfl⟩ <;>
    cases flagsV <;> simp_all [addFlags, checkFlagConflict, typeofJV]

/-- Witness for C4: re-registering plugin A for command run with different
and even name-colliding flags still yields the duplicate-plugin error. -/
theorem addFlags_duplicate_plugin_always_rejected_first_witness :
    addFlags ⟨JVal.str "run", JVal.str "A", JVal.obj [("cwd", ⟨none, 5⟩)], JVal.undef⟩
      [("run", [("A", ⟨[("cwd", ⟨none, 0⟩)], none⟩)])] =
      (Except.error (Err.duplicatePlugin "A"),
        [("run", [("A", ⟨[("cwd", ⟨none, 0⟩)], none⟩)])]) :=
  addFlags_duplicate_plugin_always_rejected_first _ "run" "A" _ _ rfl (Or.inr (Or.inl rfl)) rfl

/-- Counterexample to C7 as stated: a call whose command is the empty
string is NOT rejected — it succeeds and stores the contribution under the
empty command name, because the source checks only `typeof` and never
emptiness. -/
theorem addFlags_empty_command_accepted_cex :
    addFlags ⟨JVal.str "", JVal.str "A", JVal.obj [], JVal.undef⟩ [] =
      (Except.ok (), [("", [("A", ⟨[], none⟩)])]) := rfl

/-- C7 (amended): addFlags checks its argument shapes fail-fast in the
order command, pluginName, flags, verify, rejecting a non-string command,
a non-string plugin name, a non-object flags value and a non-function
verify value with the corresponding invalid-argument error and an
unchanged database; empty strings are not rejected — a call with the
empty-string command succeeds and stores under the empty command name. -/
theorem addFlags_validation_order_no_empty_check :
    (∀ (e : NewEntry) (db : Database), typeofJV e.command ≠ "string" →
      addFlags e db = (Except.error Err.commandNotString, db))
    ∧ (∀ (e : NewEntry) (db : Database), typeofJV e.command = "string" →
        typeofJV e.plugin ≠ "string" →
        addFlags e db = (Except.error Err.pluginNotString, db))
    ∧ (∀ (e : NewEntry) (db : Database), typeofJV e.command = "string" →
        typeofJV e.plugin = "string" → typeofJV e.flags ≠ "object" →
        addFlags e db = (Except.error Err.flagsNotObject, db))
    ∧ (∀ (e : NewEntry) (db : Database), typeofJV e.command = "string" →
        typeofJV e.plugin = "string" → typeofJV e.flags = "object" →
        e.verify ≠ JVal.nul → e.verify ≠ JVal.undef → typeofJV e.verify ≠ "function" →
        addFlags e db = (Except.error Err.verifyNotFunction, db))
    ∧ addFlags ⟨JVal.str "", JVal.str "A", JVal.obj [], JVal.undef⟩ [] =
        (Except.ok (), [("", [("A", ⟨[], none⟩)])]) := by
  refine ⟨?_, ?_, ?_, ?_, rfl⟩
  · intro e db h
    cases hc : e.command <;> simp_all [addFlags, typeofJV]
  · intro e db hc h
    cases hcv : e.command <;> simp_all [typeofJV]
    cases hpv : e.plugin <;> simp_all [addFlags, typeofJV]
  · intro e db hc hp h
    cases hcv : e.command <;> simp_all [typeofJV]
    cases hpv : e.plugin <;> simp_all [addFlags, typeofJV]
  · intro e db hc hp hf h1 h2 h3
    cases hcv : e.command <;> simp_all [typeofJV]
    cases hpv : e.plugin <;> simp_all [addFlags, typeofJV]

/-- Witness for C7 (amended) at concrete inputs: each validation error in
its fail-fast position. -/
theorem addFlags_validation_order_no_empty_check_witness :
    addFlags ⟨JVal.num 1, JVal.num 2, JVal.num 3, JVal.num 4⟩ [] =
      (Except.error Err.commandNotString, [])
    ∧ addFlags ⟨JVal.str "c", JVal.num 2, JVal.num 3, JVal.num 4⟩ [] =
        (Except.error Err.pluginNotString, [])
    ∧ addFlags ⟨JVal.str "c", JVal.str "p", JVal.num 3, JVal.num 4⟩ [] =
        (Except.error Err.flagsNotObject, [])
    ∧ addFlags ⟨JVal.str "c", JVal.str "p", JVal.obj [], JVal.num 4⟩ [] =
        (Except.error Err.verifyNotFunction, []) :=
  ⟨addFlags_validation_order_no_empty_check.1 _ _ (by decide),
   addFlags_validation_order_no_empty_check.2.1 _ _ rfl (by decide),
   addFlags_validation_order_no_empty_check.2.2.1 _ _ rfl rfl (by decide),
   addFlags_validation_order_no_empty_check.2.2.2.1 _ _ rfl rfl rfl
     (by decide) (by decide) (by decide)⟩

/-- C1: a registration whose flags collide on a name or an alias with
flags already registered by other plugins for the same command fails with
the single aggregate conflicts error carrying the whole accumulated
conflict list, and that list enumerates every colliding flag name and
every colliding alias, each record naming the requesting plugin and the
existing owner (and, for aliases, both flag names): the checks are
accumulated over all new flags and all existing plugins, not
short-circuited. -/
theorem addFlags_conflicts_aggregated_and_enumerated
    (db : Database) (cmd plg : String) (fl : FlagMap) (vfv : JVal)
    (hv : vfv = JVal.nul ∨ vfv = JVal.undef ∨ ∃ i, vfv = JVal.fnRef i)
    (hdup : ((alookup db cmd).getD []).any (fun pc => pc.1 = plg) = false)
    (hconf : conflictList cmd plg fl ((alookup db cmd).getD []) ≠ []) :
    addFlags ⟨JVal.str cmd, JVal.str plg, JVal.obj fl, vfv⟩ db =
      (Except.error (Err.conflicts
        (conflictList cmd plg fl ((alookup db cmd).getD []))), db)
    ∧ (∀ n spec p c, (n, spec) ∈ fl → (p, c) ∈ (alookup db cmd).getD [] →
        (alookup c.flags n).isSome = true →
        Conflict.flagName n plg p cmd ∈
          conflictList cmd plg fl ((alookup db cmd).getD []))
    ∧ (∀ n spec ch p c k s2, (n, spec) ∈ fl → spec.char = some ch →
        (p, c) ∈ (alookup db cmd).getD [] → (k, s2) ∈ c.flags →
        s2.char = some ch →
        Conflict.aliasChar ch n plg k p cmd ∈
          conflictList cmd plg fl ((alookup db cmd).getD [])) := by
  refine ⟨?_, ?_, ?_⟩
  · rcases hv with rfl | rfl | ⟨i, rfl⟩ <;>
    · simp only [addFlags, checkFlagConflict, typeofJV]
      rw [hdup]
      simp [hconf]
  · intro n spec p c hn hp hf2
    exact flagName_mem_conflictList hn hp hf2
  · intro n spec ch p c k s2 hn hch hp hk hc2
    exact aliasChar_mem_conflictList hn hch hp hk hc2

/-- Witness for C1 at the spec scenario plus an alias collision: plugin C
brings a colliding name and a colliding alias against plugin B for
command run; both records appear in the one aggregate error. -/
theorem addFlags_conflicts_aggregated_and_enumerated_witness :
    addFlags ⟨JVal.str "run", JVal.str "C",
        JVal.obj [("output", ⟨none, 2⟩), ("extra", ⟨some "v", 0⟩)], JVal.undef⟩
        [("run", [("B", ⟨[("output", ⟨none, 0⟩), ("verbose", ⟨some "v", 0⟩)], none⟩)])] =
      (Except.error (Err.conflicts
        [Conflict.flagName "output" "C" "B" "run",
         Conflict.aliasChar "v" "extra" "C" "verbose" "B" "run"]),
       [("run", [("B", ⟨[("output", ⟨none, 0⟩), ("verbose", ⟨some "v", 0⟩)], none⟩)])]) :=
  (addFlags_conflicts_aggregated_and_enumerated
    [("run", [("B", ⟨[("output", ⟨none, 0⟩), ("verbose", ⟨some "v", 0⟩)], none⟩)])]
    "run" "C" [("output", ⟨none, 2⟩), ("extra", ⟨some "v", 0⟩)] JVal.undef
    (Or.inr (Or.inl rfl)) rfl (by decide)).1

/-- C3: getFlags for a command whose query command is a string returns
(without failing) a mapping whose key set is the union of the flag names
of every contribution registered under that command and no other; a
command with zero registrations yields the empty mapping. -/
theorem getFlags_keys_are_union_of_command_contributions
    (db : Database) (cmd : String) (q : GetQuery)
    (hq : q.command = JVal.str cmd) :
    ∃ res, getFlags q db = (Except.ok res, db)
      ∧ (∀ k, k ∈ keysOf res ↔
          ∃ pc ∈ (alookup db cmd).getD [], k ∈ keysOf pc.2.flags)
      ∧ (alookup db cmd = none → res = []) := by
  cases q
  cases hq
  refine ⟨_, rfl, ?_, ?_⟩
  · intro k
    rw [mem_keysOf_iff_isSome, isSome_alookup_mergeFold]
    simp only [alookup_nil, Option.isSome_none, Bool.false_eq_true, false_or]
    constructor
    · rintro ⟨pc, hm, h⟩
      exact ⟨pc, hm, mem_keysOf_iff_isSome.2 h⟩
    · rintro ⟨pc, hm, h⟩
      exact ⟨pc, hm, mem_keysOf_iff_isSome.1 h⟩
  · intro h
    simp [getFlags, h]

/-- Witness for C3: with plugins A and B registered for run and one
plugin for deploy, the keys of getFlags for run are exactly cwd, verbose
and output — the deploy flag does not appear — and an unknown command
yields the empty mapping. -/
theorem getFlags_keys_are_union_of_command_contributions_witness :
    (∃ res, getFlags ⟨JVal.str "run"⟩
        [("run", [("A", ⟨[("cwd", ⟨none, 0⟩), ("verbose", ⟨some "v", 0⟩)], none⟩),
                  ("B", ⟨[("output", ⟨none, 1⟩)], none⟩)]),
         ("deploy", [("D", ⟨[("target", ⟨none, 3⟩)], none⟩)])] =
        (Except.ok res,
         [("run", [("A", ⟨[("cwd", ⟨none, 0⟩), ("verbose", ⟨some "v", 0⟩)], none⟩),
                   ("B", ⟨[("output", ⟨none, 1⟩)], none⟩)]),
          ("deploy", [("D", ⟨[("target", ⟨none, 3⟩)], none⟩)])])
      ∧ (∀ k, k ∈ keysOf res ↔
          ∃ pc ∈ [("A", (⟨[("cwd", ⟨none, 0⟩), ("verbose", ⟨some "v", 0⟩)], none⟩ : Contribution)),
                  ("B", ⟨[("output", ⟨none, 1⟩)], none⟩)], k ∈ keysOf pc.2.flags))
    ∧ (∃ res2, getFlags ⟨JVal.str "missing"⟩
        [("run", [("A", ⟨[("cwd", ⟨none, 0⟩)], none⟩)])] =
        (Except.ok res2,
         [("run", [("A", ⟨[("cwd", ⟨none, 0⟩)], none⟩)])]) ∧ res2 = []) := by
  constructor
  · obtain ⟨res, h1, h2, h3⟩ := getFlags_keys_are_union_of_command_contributions
      [("run", [("A", ⟨[("cwd", ⟨none, 0⟩), ("verbose", ⟨some "v", 0⟩)], none⟩),
                ("B", ⟨[("output", ⟨none, 1⟩)], none⟩)]),
       ("deploy", [("D", ⟨[("target", ⟨none, 3⟩)], none⟩)])] "run" ⟨JVal.str "run"⟩ rfl
    exact ⟨res, h1, h2⟩
  · obtain ⟨res2, h1, h2, h3⟩ := getFlags_keys_are_union_of_command_contributions
      [("run", [("A", ⟨[("cwd", ⟨none, 0⟩)], none⟩)])] "missing" ⟨JVal.str "missing"⟩ rfl
    exact ⟨res2, h1, h3 rfl⟩

/-- Counterexample to C6 as stated: a single call whose flags carry the
same alias x on the two different flag names a and b succeeds with both
flags stored — it does not fail with an alias-conflict error. -/
theorem addFlags_internal_alias_collision_accepted_cex :
    addFlags ⟨JVal.str "run", JVal.str "A",
        JVal.obj [("a", ⟨some "x", 0⟩), ("b", ⟨some "x", 0⟩)], JVal.undef⟩ [] =
      (Except.ok (),
       [("run", [("A", ⟨[("a", ⟨some "x", 0⟩), ("b", ⟨some "x", 0⟩)], none⟩)])]) := rfl

/-- C6 (amended): a call whose flags mapping contains two different flag
names carrying the same alias value is NOT rejected when its arguments are
valid, the plugin is new for the command and no conflict against the other
already registered plugins exists: the conflict check compares the new
flags only against other plugins, so the same-call internal alias
collision goes undetected and the whole contribution is stored. -/
theorem addFlags_internal_alias_collision_not_detected
    (db : Database) (cmd plg : String) (fl : FlagMap) (vfv : JVal)
    (hv : vfv = JVal.nul ∨ vfv = JVal.undef ∨ ∃ i, vfv = JVal.fnRef i)
    (hdup : ((alookup db cmd).getD []).any (fun pc => pc.1 = plg) = false)
    (hconf : conflictList cmd plg fl ((alookup db cmd).getD []) = [])
    (n1 s1 n2 s2 : _) (ch : String)
    (_h1 : (n1, s1) ∈ fl) (_h2 : (n2, s2) ∈ fl) (_hne : n1 ≠ n2)
    (_hc1 : s1.char = some ch) (_hc2 : s2.char = some ch) :
    ∃ nv, addFlags ⟨JVal.str cmd, JVal.str plg, JVal.obj fl, vfv⟩ db =
        (Except.ok (), setKey db cmd
          (setKey ((alookup db cmd).getD []) plg ⟨fl, nv⟩))
      ∧ alookup ((alookup (addFlags ⟨JVal.str cmd, JVal.str plg, JVal.obj fl, vfv⟩ db).2
          cmd).getD []) plg = some ⟨fl, nv⟩ := by
  have hstep : addFlags ⟨JVal.str cmd, JVal.str plg, JVal.obj fl, vfv⟩ db =
      (Except.ok (), setKey db cmd
        (setKey ((alookup db cmd).getD []) plg
          ⟨fl, match vfv with | JVal.fnRef i => some i | _ => none⟩)) := by
    rcases hv with rfl | rfl | ⟨i, rfl⟩ <;>
    · simp only [addFlags, checkFlagConflict, typeofJV]
      rw [hdup]
      simp [hconf, objAssign_nil]
  refine ⟨_, hstep, ?_⟩
  rw [hstep]
  simp only []
  rw [alookup_setKey_self]
  simp only [Option.getD_some]
  rw [alookup_setKey_self]

/-- Witness for C6 (amended): the internal alias duplicate from the
counterexample is stored wholesale under plugin A for command run. -/
theorem addFlags_internal_alias_collision_not_detected_witness :
    ∃ nv, addFlags ⟨JVal.str "run", JVal.str "A",
        JVal.obj [("a", ⟨some "x", 0⟩), ("b", ⟨some "x", 0⟩)], JVal.undef⟩ [] =
        (Except.ok (), setKey [] "run"
          (setKey ((alookup ([] : Database) "run").getD []) "A"
            ⟨[("a", ⟨some "x", 0⟩), ("b", ⟨some "x", 0⟩)], nv⟩))
      ∧ alookup ((alookup (addFlags ⟨JVal.str "run", JVal.str "A",
          JVal.obj [("a", ⟨some "x", 0⟩), ("b", ⟨some "x", 0⟩)], JVal.undef⟩ []).2
          "run").getD []) "A" =
          some ⟨[("a", ⟨some "x", 0⟩), ("b", ⟨some "x", 0⟩)], nv⟩ :=
  addFlags_internal_alias_collision_not_detected [] "run" "A"
    [("a", ⟨some "x", 0⟩), ("b", ⟨some "x", 0⟩)] JVal.undef
    (Or.inr (Or.inl rfl)) rfl rfl
    "a" ⟨some "x", 0⟩ "b" ⟨some "x", 0⟩ "x"
    (by decide) (by decide) (by decide) rfl rfl

/-- C5: for a valid query, verifyFlags invokes the verify callback of
every contribution registered under the command exactly once, in
registration order (the invocation trace is exactly the in-order list of
plugin names carrying a callback), skipping contributions without a
callback; and when a callback throws, the error propagates to the caller
and the callbacks after it are not invoked (the trace stops at the
throwing plugin). -/
theorem verifyFlags_invokes_callbacks_in_order
    (fenv : FEnv) (db : Database) (cmd : String) (q : VerifyQuery)
    (hq : q.command = JVal.str cmd) (hf : typeofJV q.flags = "object") :
    ((∀ pc ∈ (alookup db cmd).getD [], ∀ i, pc.2.verify = some i →
        fenv i q.flags = none) →
      verifyFlags fenv q db =
        ((Except.ok (), withCb ((alookup db cmd).getD [])), db))
    ∧ (∀ l1 pc l2 i msg, (alookup db cmd).getD [] = l1 ++ pc :: l2 →
        (∀ pc2 ∈ l1, ∀ i2, pc2.2.verify = some i2 → fenv i2 q.flags = none) →
        pc.2.verify = some i → fenv i q.flags = some msg →
        verifyFlags fenv q db =
          ((Except.error (Err.verifyThrow msg), withCb l1 ++ [pc.1]), db)) := by
  obtain ⟨c, fv⟩ := q
  subst hq
  simp only at hf
  constructor
  · intro h
    simp only [verifyFlags, hf]
    rw [runVerify_ok h]
    simp [hf]
  · intro l1 pc l2 i msg heq h1 hi hm
    simp only [verifyFlags]
    rw [heq, runVerify_fail l2 l1 h1 hi hm]
    simp [hf]

/-- Witness for C5: with callbacks on plugins A, B and C for command run
where the callback of B throws with message bad, the call invokes A then
B only (each once, in order) and propagates the thrown error; C is never
invoked. -/
theorem verifyFlags_invokes_callbacks_in_order_witness :
    verifyFlags (fun i _ => if i = 0 then none else some "bad")
      ⟨JVal.str "run", JVal.obj []⟩
      [("run", [("A", ⟨[], some 0⟩), ("B", ⟨[], some 1⟩), ("C", ⟨[], some 0⟩)])] =
      ((Except.error (Err.verifyThrow "bad"), ["A", "B"]),
       [("run", [("A", ⟨[], some 0⟩), ("B", ⟨[], some 1⟩), ("C", ⟨[], some 0⟩)])]) :=
  (verifyFlags_invokes_callbacks_in_order
    (fun i _ => if i = 0 then none else some "bad")
    [("run", [("A", ⟨[], some 0⟩), ("B", ⟨[], some 1⟩), ("C", ⟨[], some 0⟩)])]
    "run" ⟨JVal.str "run", JVal.obj []⟩ rfl rfl).2
    [("A", ⟨[], some 0⟩)] ("B", ⟨[], some 1⟩) [("C", ⟨[], some 0⟩)] 1 "bad"
    rfl
    (by
      intro pc2 hm i2 hi2
      simp only [List.mem_singleton] at hm
      subst hm
      simp only at hi2
      injection hi2 with h
      subst h
      rfl)
    rfl rfl

/-- C9: a getFlags query whose command field is not a string throws
rather than returning the empty mapping; a verifyFlags query whose
command field is not a string, or whose flags field is not of object
type, likewise throws; in all three cases the database is returned
untouched. -/
theorem getFlags_verifyFlags_nonstring_checks :
    (∀ (q : GetQuery) (db : Database), typeofJV q.command ≠ "string" →
      getFlags q db = (Except.error Err.getCommandNotString, db))
    ∧ (∀ (fenv : FEnv) (q : VerifyQuery) (db : Database),
        typeofJV q.command ≠ "string" →
        verifyFlags fenv q db = ((Except.error Err.verifyCommandNotString, []), db))
    ∧ (∀ (fenv : FEnv) (q : VerifyQuery) (db : Database),
        typeofJV q.command = "string" → typeofJV q.flags ≠ "object" →
        verifyFlags fenv q db = ((Except.error Err.verifyFlagsNotObject, []), db)) := by
  refine ⟨?_, ?_, ?_⟩
  · intro q db h
    obtain ⟨c⟩ := q
    cases c <;> simp_all [getFlags, typeofJV]
  · intro fenv q db h
    obtain ⟨c, fv⟩ := q
    cases c <;> simp_all [verifyFlags, typeofJV]
  · intro fenv q db hc hflags
    obtain ⟨c, fv⟩ := q
    cases c <;> simp_all [verifyFlags, typeofJV]

/-- Witness for C9: a null command (whose JS typeof is object, not
string) makes getFlags and verifyFlags throw, and a string flags value
makes verifyFlags throw, each time with the database unchanged. -/
theorem getFlags_verifyFlags_nonstring_checks_witness :
    getFlags ⟨JVal.nul⟩ [] = (Except.error Err.getCommandNotString, [])
    ∧ verifyFlags (fun _ _ => none) ⟨JVal.num 3, JVal.obj []⟩ [] =
        ((Except.error Err.verifyCommandNotString, []), [])
    ∧ verifyFlags (fun _ _ => none) ⟨JVal.str "run", JVal.str "x"⟩ [] =
        ((Except.error Err.verifyFlagsNotObject, []), []) :=
  ⟨getFlags_verifyFlags_nonstring_checks.1 _ _ (by decide),
   getFlags_verifyFlags_nonstring_checks.2.1 _ _ _ (by decide),
   getFlags_verifyFlags_nonstring_checks.2.2 _ _ _ rfl (by decide)⟩

/-- C10: a successful addFlags call for a command and plugin changes
nothing outside the entry of that plugin under that command: every other
command maps to exactly its previous registry and every other plugin
under the same command keeps exactly its previous contribution; getFlags
and verifyFlags always return the database they were given. -/
theorem addFlags_frame_and_readonly_queries :
    (∀ (e : NewEntry) (db d2 : Database) (cmd plg : String),
      e.command = JVal.str cmd → e.plugin = JVal.str plg →
      addFlags e db = (Except.ok (), d2) →
      (∀ c2, c2 ≠ cmd → alookup d2 c2 = alookup db c2)
      ∧ ∀ p2, p2 ≠ plg →
          alookup ((alookup d2 cmd).getD []) p2 =
            alookup ((alookup db cmd).getD []) p2)
    ∧ (∀ (q : GetQuery) (db : Database), (getFlags q db).2 = db)
    ∧ (∀ (fenv : FEnv) (q : VerifyQuery) (db : Database),
        (verifyFlags fenv q db).2 = db) := by
  refine ⟨?_, ?_, ?_⟩
  · intro e db d2 cmd plg hc hp hok
    obtain ⟨cmd2, plg2, fl, hc2, hp2, hf2, hd2⟩ := addFlags_success_shape hok
    rw [hc] at hc2
    rw [hp] at hp2
    injection hc2 with hcmd
    injection hp2 with hplg
    subst hcmd
    subst hplg
    subst hd2
    constructor
    · intro c2 hne
      rw [alookup_setKey_ne _ _ hne]
    · intro p2 hne
      rw [alookup_setKey_self]
      simp only [Option.getD_some]
      rw [alookup_setKey_ne _ _ hne]
  · intro q db
    obtain ⟨c⟩ := q
    cases c <;> rfl
  · intro fenv q db
    obtain ⟨c, fv⟩ := q
    cases c <;> try rfl
    simp only [verifyFlags]
    split <;> rfl

/-- Witness for C10: adding plugin B for run leaves the registry of
deploy and the contribution of plugin A under run exactly as they were,
and the two query methods return the database unchanged. -/
theorem addFlags_frame_and_readonly_queries_witness :
    alookup (addFlags ⟨JVal.str "run", JVal.str "B",
        JVal.obj [("output", ⟨none, 1⟩)], JVal.undef⟩
        [("run", [("A", ⟨[("cwd", ⟨none, 0⟩)], none⟩)]),
         ("deploy", [("D", ⟨[], none⟩)])]).2 "deploy" =
      alookup [("run", [("A", ⟨[("cwd", ⟨none, 0⟩)], none⟩)]),
               ("deploy", [("D", ⟨[], none⟩)])] "deploy"
    ∧ alookup ((alookup (addFlags ⟨JVal.str "run", JVal.str "B",
        JVal.obj [("output", ⟨none, 1⟩)], JVal.undef⟩
        [("run", [("A", ⟨[("cwd", ⟨none, 0⟩)], none⟩)]),
         ("deploy", [("D", ⟨[], none⟩)])]).2 "run").getD []) "A" =
      alookup ((alookup [("run", [("A", ⟨[("cwd", ⟨none, 0⟩)], none⟩)]),
               ("deploy", [("D", ⟨[], none⟩)])] "run").getD []) "A"
    ∧ (getFlags ⟨JVal.str "run"⟩
        [("run", [("A", ⟨[("cwd", ⟨none, 0⟩)], none⟩)])]).2 =
      [("run", [("A", ⟨[("cwd", ⟨none, 0⟩)], none⟩)])]
    ∧ (verifyFlags (fun _ _ => none) ⟨JVal.str "run", JVal.obj []⟩
        [("run", [("A", ⟨[("cwd", ⟨none, 0⟩)], none⟩)])]).2 =
      [("run", [("A", ⟨[("cwd", ⟨none, 0⟩)], none⟩)])] :=
  by
  have h := addFlags_frame_and_readonly_queries.1
    ⟨JVal.str "run", JVal.str "B", JVal.obj [("output", ⟨none, 1⟩)], JVal.undef⟩
    [("run", [("A", ⟨[("cwd", ⟨none, 0⟩)], none⟩)]), ("deploy", [("D", ⟨[], none⟩)])]
    [("run", [("A", ⟨[("cwd", ⟨none, 0⟩)], none⟩),
              ("B", ⟨[("output", ⟨none, 1⟩)], none⟩)]),
     ("deploy", [("D", ⟨[], none⟩)])]
    "run" "B" rfl rfl rfl
  exact ⟨h.1 "deploy" (by decide), h.2 "A" (by decide),
    addFlags_frame_and_readonly_queries.2.1 _ _,
    addFlags_frame_and_readonly_queries.2.2 _ _ _⟩

/-- C8 concerns a code bug: `addFlags` line 83 stores
`Object.assign(newFlags, \x7b\x7d)`, whose target — and therefore return
value — is the callers `newFlags` object itself with nothing merged into
it, NOT an independent copy (the source comment says copied flags; the
copying call would be `Object.assign(\x7b\x7d, newFlags)`).  Hence: the
stored contents are the argument unchanged, the stored reference IS the
callers reference, and any later heap mutation of the callers object is
seen by the registry through the stored reference. -/
theorem addFlags_stores_callers_flags_object :
    (∀ fl : FlagMap, objAssign fl [] = fl)
    ∧ (∀ r : ObjRef, storedFlagsObj r = r)
    ∧ (∀ (heap : Nat → FlagMap) (r : ObjRef),
        readRef heap (storedFlagsObj r) = heap r.id) :=
  ⟨fun _ => rfl, fun _ => rfl, fun _ _ => rfl⟩

end FlagHandler
